import Mathlib

/-!
Verification of the telemetry caching / broadcast engine and the
process-control pipeline of the Real-Time Process Monitoring Dashboard.

The development is a shallow embedding of the server code (`src/server.js`
is the canonical server at the repository root; `src/server/src/index.ts`
holds the TypeScript variant whose `kill-process` handler carries the
only pid validation in the repository).  JavaScript numbers are modelled
as rationals (`ℚ`); `x.toFixed(1)` is modelled by the numeric value of
the rendered string (`jsToFixed1`); fallible asynchronous calls are
modelled by `Option` / `Except` parameters describing the outcome of the
external call; the Socket.IO handlers are modelled as functions from the
request and the outcomes of external calls to the ordered list of
emitted events.
-/

namespace Dashboard

/-- `process.platform === 'win32'` is the only platform test the servers
perform, so the platform is modelled as a two-valued type. -/
inductive Platform
  | win32
  | other
  deriving DecidableEq, Repr

/-- Numeric value of JavaScript `x.toFixed(1)` (round to one decimal,
half away from zero for the nonnegative values that occur here).  The
delivered field is the rendered string; we track its numeric value. -/
def jsToFixed1 (q : ℚ) : ℚ := ((⌊q * 10 + 1 / 2⌋ : ℤ) : ℚ) / 10

/-- A raw process record as consumed from `si.processes().list` by
`server.js` (`getProcessList`): `pid`, and the fields that are only used
when present with the right type (`typeof process.cpu === 'number'` is
modelled by `Option`). -/
structure RawProc where
  pid : Int
  name : Option String
  cpu : Option ℚ
  memRss : Option ℚ
  user : Option String
  deriving DecidableEq, Repr

/-- A formatted process entry as emitted to viewers
(`server.js` `getProcessList` / `parseWindowsTasklist` output shape).
`cpu` and `memory` carry the numeric value of the one-decimal string;
`pid` is `none` when JavaScript would hold `NaN` (a `parseInt` failure). -/
structure ProcEntry where
  pid : Option Int
  name : String
  cpu : ℚ
  memory : ℚ
  user : String
  deriving DecidableEq, Repr

/-- `getDummyProcesses()` from `server.js` (lines 181-189): the fixed
synthetic placeholder snapshot. -/
def dummyProcesses : List ProcEntry :=
  [{ pid := some 1, name := "System", cpu := 0.1, memory := 0.2, user := "System" },
   { pid := some 2, name := "Explorer", cpu := 0.5, memory := 1.0, user := "User" },
   { pid := some 3, name := "Chrome", cpu := 5.0, memory := 10.0, user := "User" },
   { pid := some 4, name := "Node.js", cpu := 2.5, memory := 5.0, user := "User" }]

/-- The comparator of `server.js` line 106,
`(a, b) => parseFloat(b.cpu) - parseFloat(a.cpu)`, as the Boolean
"a may come before b" relation: descending by cpu. -/
def cpuDescLe (a b : ProcEntry) : Bool := decide (b.cpu ≤ a.cpu)

/-- The `filter`/`map` stage of `server.js` `getProcessList`
(lines 95-105): drop null records and records with `pid ≤ 0`, default
missing fields, render `cpu` and `memRss / os.totalmem() * 100` to one
decimal. -/
def formatProcesses (totalmem : ℚ) (list : List (Option RawProc)) : List ProcEntry :=
  (list.filterMap fun op =>
    match op with
    | some p => if 0 < p.pid then some p else none
    | none => none).map fun p =>
      { pid := some p.pid
        name := p.name.getD "Unknown"
        cpu := (p.cpu.map jsToFixed1).getD 0
        memory := (p.memRss.map (fun m => jsToFixed1 (m / totalmem * 100))).getD 0
        user := p.user.getD "Unknown" }

/-- The full format-sort-truncate stage of `server.js` `getProcessList`
(lines 95-107): sort descending by cpu (JavaScript `Array.sort` with the
comparator of line 106 is a stable sort, modelled by `mergeSort`), keep
the top 50. -/
def formatSortTruncate (totalmem : ℚ) (list : List (Option RawProc)) : List ProcEntry :=
  ((formatProcesses totalmem list).mergeSort cpuDescLe).take 50

/-- JavaScript `str.split('\n')`: split at every newline, keeping empty
segments (`"a\n"` splits into `["a", ""]`, `""` into `[""]`). -/
def splitOnChar (sep : Char) : List Char → List (List Char)
  | [] => [[]]
  | c :: rest =>
    if c = sep then [] :: splitOnChar sep rest
    else
      match splitOnChar sep rest with
      | [] => [[c]]
      | h :: t => (c :: h) :: t

/-- The line stage shared by both shell parsers:
`output.split('\n').filter(line => line.trim())`.  A trimmed line is
truthy exactly when the line contains a non-whitespace character. -/
def jsLines (output : String) : List (List Char) :=
  (splitOnChar '\n' output.toList).filter fun l => l.any fun c => !c.isWhitespace

/-- Single left-to-right pass collecting maximal non-whitespace runs;
`acc` holds the reversed characters of the run in progress. -/
def wsTokensAux : List Char → List Char → List (List Char)
  | [], acc => if acc.isEmpty then [] else [acc.reverse]
  | c :: rest, acc =>
    if c.isWhitespace then
      if acc.isEmpty then wsTokensAux rest []
      else acc.reverse :: wsTokensAux rest []
    else wsTokensAux rest (c :: acc)

/-- JavaScript `line.trim().split(/\s+/)` on a line that contains at
least one non-whitespace character: the maximal runs of non-whitespace
characters, in order. -/
def wsTokens (cs : List Char) : List (List Char) := wsTokensAux cs []

/-- Leading decimal digits of a character list, as a number (`none` when
there is no leading digit). -/
def leadingDigits (cs : List Char) : Option Nat :=
  let ds := cs.takeWhile Char.isDigit
  if ds.isEmpty then none
  else some (ds.foldl (fun n c => n * 10 + (c.toNat - 48)) 0)

/-- JavaScript `parseInt(s, 10)`: skip leading whitespace, optional
sign, then the longest digit prefix; `none` models `NaN`. -/
def jsParseInt (cs : List Char) : Option Int :=
  match cs.dropWhile Char.isWhitespace with
  | '-' :: rest => (leadingDigits rest).map fun n => -(n : Int)
  | '+' :: rest => (leadingDigits rest).map fun n => (n : Int)
  | rest => (leadingDigits rest).map fun n => (n : Int)

/-- Single left-to-right pass for the regex `/"([^"]+)"/g`: `none`
means we are outside a match attempt, `some acc` means a quote has been
opened and `acc` holds the reversed inner characters so far.  A quote
met while the inner part is still empty re-opens the attempt there (the
regex requires a non-empty inner part, so `""` yields no match and the
scan resumes at the second quote). -/
def quotedFieldsAux : List Char → Option (List Char) → List (List Char)
  | [], _ => []
  | c :: rest, none =>
    if c = '"' then quotedFieldsAux rest (some [])
    else quotedFieldsAux rest none
  | c :: rest, some acc =>
    if c = '"' then
      if acc.isEmpty then quotedFieldsAux rest (some [])
      else acc.reverse :: quotedFieldsAux rest none
    else quotedFieldsAux rest (some (c :: acc))

/-- All matches of the JavaScript regex `/"([^"]+)"/g` (used by
`parseWindowsTasklist` line 146): the non-empty quoted segments, scanned
left to right; a quoted match consumes its closing quote. -/
def quotedFields (cs : List Char) : List (List Char) := quotedFieldsAux cs none

/-- `parseWindowsTasklist(output)` from `server.js` (lines 138-178):
skip the header line, keep lines with at least two quoted fields
(name, pid), drop malformed lines individually, truncate to 50, then
overwrite `cpu`/`memory` with display estimates from `Math.random()`
(abstracted by the oracle `rand`, giving the two already-rounded values
used at each index).  The surrounding `try`/`catch` falling back to
`getDummyProcesses` is dead in this model because every stage is total. -/
def parseWindowsTasklist (rand : Nat → ℚ × ℚ) (output : String) : List ProcEntry :=
  let entries : List ProcEntry := ((jsLines output).drop 1).filterMap fun line =>
    let m := quotedFields line
    if 2 ≤ m.length then
      some { pid := jsParseInt (m.getD 1 [])
             name := String.mk (m.getD 0 [])
             cpu := 0
             memory := 0
             user := "Unknown" }
    else none
  (entries.take 50).enum.map fun ie =>
    { ie.2 with cpu := (rand ie.1).1, memory := (rand ie.1).2 }

/-- A parsed `ps` row, as pushed by `parseUnixPS` in
`src/server/src/index.ts` (lines 465-494): `cpu`/`mem` are kept as the
raw text columns; `pid` is `none` when `parseInt` yields `NaN`. -/
structure PSEntry where
  pid : Option Int
  name : String
  cpu : String
  mem : String
  user : String
  deriving DecidableEq, Repr

/-- `parseUnixPS(output)` from `src/server/src/index.ts` (lines
465-494): split into non-blank lines, skip the header, split each line
on whitespace, keep lines with at least 5 columns and drop shorter
(malformed) lines individually. -/
def parseUnixPS (output : String) : List PSEntry :=
  ((jsLines output).drop 1).filterMap fun line =>
    let parts := wsTokens line
    if 5 ≤ parts.length then
      some { pid := jsParseInt (parts.getD 0 [])
             name := String.mk (parts.getD 1 [])
             cpu := String.mk (parts.getD 2 [])
             mem := String.mk (parts.getD 3 [])
             user := String.mk (parts.getD 4 []) }
    else none

/-- `getProcessList` from `server.js` (lines 67-122).  External
outcomes are passed in: `shellRes` is the `tasklist /FO CSV` stdout or
its failure (only consulted on win32), `siRes` is `si.processes()`
(`none` covers both a rejected promise, caught at line 118, and the
line 87 shape check failing), `totalmem` is `os.totalmem()`.
Control flow: on win32 the tasklist strategy runs first and its parse is
returned without any emptiness check; otherwise `si.processes()` is
formatted, sorted descending by cpu and truncated to 50, and the dummy
placeholder is returned when the collector failed or the formatted list
is empty. -/
def getProcessList (platform : Platform) (shellRes : Except Unit String)
    (rand : Nat → ℚ × ℚ) (siRes : Option (List (Option RawProc))) (totalmem : ℚ) :
    List ProcEntry :=
  match platform, shellRes with
  | .win32, .ok stdout => parseWindowsTasklist rand stdout
  | _, _ =>
    match siRes with
    | none => dummyProcesses
    | some list =>
      let formatted := formatSortTruncate totalmem list
      if formatted.length = 0 then dummyProcesses else formatted

/-- The acquisition strategies of the fallback chain. -/
inductive Strategy
  | shell
  | primary
  | placeholder
  deriving DecidableEq, Repr

/-- The ordered list of strategies `getProcessList` actually enters on a
given run, mirroring the control flow of `server.js` lines 67-122: on
win32 the tasklist shell strategy is entered first and, when its exec
succeeds, nothing else runs; the `si.processes()` primary strategy runs
otherwise; the placeholder runs when the primary fails or formats to an
empty list. -/
def getProcessListAttempts (platform : Platform) (shellRes : Except Unit String)
    (siRes : Option (List (Option RawProc))) (totalmem : ℚ) : List Strategy :=
  let primaryPart : List Strategy :=
    match siRes with
    | none => [.primary, .placeholder]
    | some list =>
      if (formatSortTruncate totalmem list).length = 0 then [.primary, .placeholder]
      else [.primary]
  match platform, shellRes with
  | .win32, .ok _ => [.shell]
  | .win32, .error _ => .shell :: primaryPart
  | .other, _ => primaryPart

/-- The `updateInterval` / `getProcessList` socket paths of `server.js`
(lines 424-452, 466) overwrite the cache with whatever `getProcessList`
resolves to; the previous cache value is never consulted.  The `catch`
branch that would leave the cache untouched is unreachable because
`getProcessList` handles all its failures internally. -/
def updateProcessListCache (prev : List ProcEntry) (platform : Platform)
    (shellRes : Except Unit String) (rand : Nat → ℚ × ℚ)
    (siRes : Option (List (Option RawProc))) (totalmem : ℚ) : List ProcEntry :=
  getProcessList platform shellRes rand siRes totalmem

/-- Raw `si.mem()` sample as used by `server.js` `getSystemInfo`. -/
structure RawMem where
  total : ℚ
  used : ℚ
  free : ℚ
  deriving DecidableEq, Repr

/-- One element of `si.currentLoad().cpus`. -/
structure RawCore where
  load : ℚ
  deriving DecidableEq, Repr

/-- Raw `si.currentLoad()` sample as used by `server.js`
`getSystemInfo`. -/
structure RawLoad where
  currentLoad : ℚ
  cpus : List RawCore
  deriving DecidableEq, Repr

/-- A delivered per-core entry (`{ load: ... }`, numeric value of the
one-decimal string). -/
structure CoreInfo where
  load : ℚ
  deriving DecidableEq, Repr

/-- The delivered `cpu` object of `server.js` `getSystemInfo`
(lines 209-219). -/
structure CpuInfo where
  manufacturer : String
  brand : String
  speed : ℚ
  cores : List CoreInfo
  load : ℚ
  temperature : ℚ
  deriving DecidableEq, Repr

/-- The delivered `memory` object of `server.js` `getSystemInfo`
(lines 222-227). -/
structure MemInfo where
  total : ℚ
  free : ℚ
  used : ℚ
  usedPercent : ℚ
  deriving DecidableEq, Repr

/-- A delivered SystemSnapshot (`server.js` lines 229-233; the ISO
timestamp string is real-time output and is not modelled). -/
structure SysInfo where
  cpu : CpuInfo
  memory : MemInfo
  deriving DecidableEq, Repr

/-- `getDummySystemInfo()` from `server.js` (lines 241-265). -/
def dummySystemInfo : SysInfo :=
  { cpu := { manufacturer := "CPU", brand := "Processor", speed := 3.0,
             cores := [{ load := 25.0 }, { load := 30.0 }, { load := 15.0 }, { load := 20.0 }],
             load := 22.5, temperature := 45.0 },
    memory := { total := 8000000000, free := 4000000000, used := 4000000000,
                usedPercent := 50.0 } }

/-- `getSystemInfo` from `server.js` (lines 192-238).  `memRes` /
`loadRes` are the outcomes of `si.mem()` / `si.currentLoad()`; `none`
covers both a rejected promise (caught at line 234) and the falsy-value
checks of lines 196 and 203, each of which yields the dummy snapshot.
Loads are clamped with `Math.min(·, 100)` only, the core list is cut to
4 entries, memory totals are passed through verbatim and `usedPercent`
is `Math.min(used / total * 100, 100)`. -/
def getSystemInfo (memRes : Option RawMem) (loadRes : Option RawLoad) : SysInfo :=
  match memRes with
  | none => dummySystemInfo
  | some memory =>
    match loadRes with
    | none => dummySystemInfo
    | some currentLoad =>
      { cpu := { manufacturer := "CPU", brand := "Processor",
                 speed := jsToFixed1 (min currentLoad.currentLoad 100),
                 cores := (currentLoad.cpus.map fun core =>
                   { load := jsToFixed1 (min core.load 100) }).take 4,
                 load := jsToFixed1 (min currentLoad.currentLoad 100),
                 temperature := 45.0 },
        memory := { total := memory.total, free := memory.free, used := memory.used,
                    usedPercent := jsToFixed1 (min (memory.used / memory.total * 100) 100) } }

/-- A JavaScript value arriving as the `pid` payload of a kill request
(restricted to the shapes relevant to validation and rendering). -/
inductive JSVal
  | num (n : Int)
  | str (s : String)
  | boolean (b : Bool)
  | null
  | undef
  deriving DecidableEq, Repr

/-- JavaScript truthiness, the only check `if (!pid)` performs
(`src/server/src/index.ts` line 95). -/
def truthy : JSVal → Bool
  | .num n => n != 0
  | .str s => s != ""
  | .boolean b => b
  | .null => false
  | .undef => false

/-- Template-literal rendering `${pid}` of the value. -/
def jsRender : JSVal → String
  | .num n => toString n
  | .str s => s
  | .boolean b => if b then "true" else "false"
  | .null => "null"
  | .undef => "undefined"

/-- The shell command built by `killProcessById` (`server.js` lines
274-278), by the `kill-process` handler (`src/server/src/index.ts`
lines 108-110) and by `killProcessById` in `src/unnamed/part_001`: the
fixed prefix concatenated with the rendered pid. -/
def killCommand (platform : Platform) (pid : JSVal) : String :=
  match platform with
  | .win32 => "taskkill /F /PID " ++ jsRender pid
  | .other => "kill -9 " ++ jsRender pid

/-- Observable actions of a kill handler, in emission/execution order.
`refreshProcessList` marks the unconditional `getProcessList()` call of
`server.js` line 466 (it consults no timestamp, so it bypasses the
interval gate). -/
inductive Event
  | ack (pid : JSVal)
  | execCall (cmd : String)
  | refreshProcessList
  | emitProcessList (l : List ProcEntry)
  | response (success : Bool) (pid : JSVal) (msg : String)
  deriving DecidableEq, Repr

/-- Whether an event is a terminal kill outcome
(`killProcessResponse` / `kill-process-response`). -/
def Event.isTerminal : Event → Bool
  | .response _ _ _ => true
  | _ => false

/-- `killProcessById(pid)` from `server.js` (lines 268-310): always
executes the platform command; resolves with the fixed success message
or rejects with the exec error message (`execErr`; `none` = the exec
callback got no error). -/
def killProcessById (platform : Platform) (pid : JSVal) (execErr : Option String) :
    String × Except String String :=
  (killCommand platform pid,
   match execErr with
   | some e => .error e
   | none => .ok ("Process " ++ jsRender pid ++ " terminated successfully"))

/-- The `socket.on('killProcess')` handler of `server.js`
(lines 455-481) as the ordered list of its observable actions: emit the
acknowledgment immediately, execute the platform command (no pid
validation of any kind precedes it), then on resolution refresh the
process-list cache via `getProcessList`, emit the refreshed list and
emit the success response; on rejection emit the failure response with
`error.message || 'Unknown error'`. -/
def killHandlerTrace (platform : Platform) (pid : JSVal) (execErr : Option String)
    (shellRes : Except Unit String) (rand : Nat → ℚ × ℚ)
    (siRes : Option (List (Option RawProc))) (totalmem : ℚ) : List Event :=
  let r := killProcessById platform pid execErr
  Event.ack pid :: Event.execCall r.1 ::
    match r.2 with
    | .ok msg =>
      [Event.refreshProcessList,
       Event.emitProcessList (getProcessList platform shellRes rand siRes totalmem),
       Event.response true pid msg]
    | .error e => [Event.response false pid (if e = "" then "Unknown error" else e)]

/-- The `socket.on('kill-process')` handler of
`src/server/src/index.ts` (lines 93-134): reject falsy pids with a
failure response and no platform call; otherwise execute the platform
command and emit exactly one response from the exec callback
(`error.message || 'Failed to terminate process'` on error).  No
acknowledgment event exists in this variant and no snapshot is
consulted. -/
def tsKillHandlerTrace (platform : Platform) (pid : JSVal) (execErr : Option String) :
    List Event :=
  if truthy pid = false then
    [Event.response false pid "Invalid PID"]
  else
    Event.execCall (killCommand platform pid) ::
      match execErr with
      | some e =>
        [Event.response false pid (if e = "" then "Failed to terminate process" else e)]
      | none =>
        [Event.response true pid ("Process " ++ jsRender pid ++ " terminated successfully")]

/-- `PROCESS_LIST_INTERVAL` from `server.js` line 63 (milliseconds). -/
def PROCESS_LIST_INTERVAL : Nat := 30000

/-- Where one viewer session's interval callback stands with respect to
the process-list kind: between ticks, or suspended inside
`await getProcessList()` after passing the staleness check at time
`startedAt` (`server.js` lines 428-432). -/
inductive SessionSt
  | idle
  | fetching (startedAt : Nat)
  deriving DecidableEq, Repr

/-- The shared mutable state of `server.js` for the process-list kind
(`processListCache`, `lastProcessListUpdate`, lines 57-59) together
with the per-connection callback states.  There is no in-flight flag in
the source; this structure holds exactly the variables the code has. -/
structure SchedState where
  lastProcessListUpdate : Nat
  processListCache : List ProcEntry
  sessions : List SessionSt
  deriving DecidableEq, Repr

/-- Number of collector calls currently outstanding (sessions suspended
inside `await getProcessList()`). -/
def inFlight (s : SchedState) : Nat :=
  s.sessions.countP fun ss =>
    match ss with
    | .fetching _ => true
    | .idle => false

/-- Event-loop steps of the `updateInterval` callback body of
`server.js` (lines 424-438), process-list part.  The callback runs
atomically up to the `await`: it reads `now = Date.now()`, and when
`now - lastProcessListUpdate >= PROCESS_LIST_INTERVAL` it enters
`getProcessList()` (`startRefresh`); the shared timestamp and cache are
written only when the awaited call resolves (`finishRefresh`, with the
`now` captured before the await); a callback whose check fails does
nothing (`tickFresh`). -/
inductive SchedStep : SchedState → SchedState → Prop
  | startRefresh (s : SchedState) (i now : Nat)
      (hidle : s.sessions[i]? = some .idle)
      (hstale : PROCESS_LIST_INTERVAL ≤ now - s.lastProcessListUpdate) :
      SchedStep s { s with sessions := s.sessions.set i (.fetching now) }
  | finishRefresh (s : SchedState) (i now : Nat) (result : List ProcEntry)
      (hfetch : s.sessions[i]? = some (.fetching now)) :
      SchedStep s { lastProcessListUpdate := now, processListCache := result,
                    sessions := s.sessions.set i .idle }
  | tickFresh (s : SchedState) (i now : Nat)
      (hidle : s.sessions[i]? = some .idle)
      (hfresh : now - s.lastProcessListUpdate < PROCESS_LIST_INTERVAL) :
      SchedStep s s

/-- States reachable from a fresh server with `n` connected viewers
(`lastProcessListUpdate = 0`, empty cache, all callbacks idle). -/
def SchedReachable (n : Nat) (s : SchedState) : Prop :=
  Relation.ReflTransGen SchedStep
    { lastProcessListUpdate := 0, processListCache := [], sessions := List.replicate n .idle } s

/-! ## Claim C1 -/

/-- C1 counterexample: the invariant "at most one refresh per resource
kind is in flight" fails for the process-list kind.  `server.js` keeps
no in-flight flag: with two connected viewers whose interval callbacks
both observe the stale timestamp at time 30000, both sessions enter
`getProcessList()` and a state with two outstanding collector calls is
reachable, so the second request is not coalesced onto the first. -/
theorem two_process_refreshes_in_flight_reachable :
    ¬ ∀ s : SchedState, SchedReachable 2 s → inFlight s ≤ 1 := by
  intro h
  have st1 : SchedStep
      { lastProcessListUpdate := 0, processListCache := [], sessions := [.idle, .idle] }
      { lastProcessListUpdate := 0, processListCache := [],
        sessions := [.fetching 30000, .idle] } :=
    SchedStep.startRefresh
      { lastProcessListUpdate := 0, processListCache := [], sessions := [.idle, .idle] }
      0 30000 rfl (by decide)
  have st2 : SchedStep
      { lastProcessListUpdate := 0, processListCache := [],
        sessions := [.fetching 30000, .idle] }
      { lastProcessListUpdate := 0, processListCache := [],
        sessions := [.fetching 30000, .fetching 30000] } :=
    SchedStep.startRefresh
      { lastProcessListUpdate := 0, processListCache := [],
        sessions := [.fetching 30000, .idle] }
      1 30000 rfl (by decide)
  have hreach : SchedReachable 2
      { lastProcessListUpdate := 0, processListCache := [],
        sessions := [.fetching 30000, .fetching 30000] } :=
    (Relation.ReflTransGen.refl.tail st1).tail st2
  exact absurd (h _ hreach) (by decide)

/-- C1 amended: refreshes of the process-list kind are gated only by
the shared timestamp, not serialized: a session's callback enters
`getProcessList()` (moves to the fetching state) only when the captured
`now` satisfies `now - lastProcessListUpdate >= PROCESS_LIST_INTERVAL`;
nothing consults the other sessions, so concurrent duplicate collector
calls are possible (see the C1 counterexample). -/
theorem refresh_start_requires_stale_cache
    (s s' : SchedState) (i now : Nat) (hstep : SchedStep s s')
    (hidle : s.sessions[i]? = some .idle)
    (hfetch : s'.sessions[i]? = some (.fetching now)) :
    PROCESS_LIST_INTERVAL ≤ now - s.lastProcessListUpdate := by
  cases hstep with
  | startRefresh j now' hj hg =>
    by_cases hij : j = i
    · subst hij
      have hlt : j < s.sessions.length := by
        rcases List.getElem?_eq_some_iff.mp hj with ⟨hl, _⟩
        exact hl
      rw [List.getElem?_set_self hlt] at hfetch
      cases hfetch
      exact hg
    · rw [List.getElem?_set_ne hij] at hfetch
      rw [hidle] at hfetch
      cases hfetch
  | finishRefresh j now' result hj =>
    by_cases hij : j = i
    · subst hij
      have hlt : j < s.sessions.length := by
        rcases List.getElem?_eq_some_iff.mp hj with ⟨hl, _⟩
        exact hl
      rw [List.getElem?_set_self hlt] at hfetch
      cases hfetch
    · rw [List.getElem?_set_ne hij] at hfetch
      rw [hidle] at hfetch
      cases hfetch
  | tickFresh j now' hj hfresh =>
    rw [hidle] at hfetch
    cases hfetch

/-- Witness for the C1 amended theorem at a concrete step: one viewer,
callback firing at time 30000 against a timestamp of 0. -/
theorem refresh_start_requires_stale_cache_witness :
    PROCESS_LIST_INTERVAL ≤ 30000 -
      ({ lastProcessListUpdate := 0, processListCache := [],
         sessions := [.idle] } : SchedState).lastProcessListUpdate :=
  refresh_start_requires_stale_cache
    { lastProcessListUpdate := 0, processListCache := [], sessions := [.idle] }
    { lastProcessListUpdate := 0, processListCache := [], sessions := [.fetching 30000] }
    0 30000
    (SchedStep.startRefresh
      { lastProcessListUpdate := 0, processListCache := [], sessions := [.idle] }
      0 30000 rfl (by decide))
    rfl rfl

/-! ## Claim C2 -/

/-- A constant stand-in for the `Math.random()` oracle of the tasklist
display estimates. -/
def rand0 : Nat → ℚ × ℚ := fun _ => (0, 0)

/-- A one-entry previous process-list cache used in counterexamples. -/
def prevCacheSample : List ProcEntry :=
  [{ pid := some 42, name := "myproc", cpu := 1, memory := 1, user := "me" }]

/-- C2 counterexample: a failed fetch does not leave the previous cache
value unchanged.  When `si.processes()` fails on a non-Windows host,
`server.js` `getProcessList` resolves with `getDummyProcesses()` and the
caller overwrites the cache with it (line 431 / 466), so a prior cache
holding a real entry is replaced by the placeholder, not retained.
The system kind behaves the same way (`getSystemInfo` resolves with
`getDummySystemInfo()` on failure). -/
theorem failed_refresh_replaces_cache_with_placeholder :
    updateProcessListCache prevCacheSample .other (Except.error ()) rand0 none 1000
      = dummyProcesses
    ∧ updateProcessListCache prevCacheSample .other (Except.error ()) rand0 none 1000
      ≠ prevCacheSample
    ∧ getSystemInfo none none = dummySystemInfo := by
  refine ⟨rfl, ?_, rfl⟩
  decide

/-- C2 amended: on a failed fetch the process-list cache is replaced by
the fixed placeholder snapshot, independently of the previous value
(stale data is not retained; placeholder data is served instead). -/
theorem failed_refresh_yields_placeholder (prev : List ProcEntry) (platform : Platform)
    (e : Unit) (rand : Nat → ℚ × ℚ) (totalmem : ℚ) :
    updateProcessListCache prev platform (Except.error e) rand none totalmem
      = dummyProcesses := by
  cases platform <;> rfl

/-! ## Claim C3 -/

/-- A well-formed `tasklist /FO CSV` output sample. -/
def winTasklistSample : String :=
  "\"Image Name\",\"PID\",\"Session Name\",\"Session#\",\"Mem Usage\"\n\"System\",\"4\",\"Services\",\"0\",\"148 K\"\n\"chrome.exe\",\"1234\",\"Console\",\"1\",\"210,000 K\"\n"

/-- C3 counterexample: the strategies are not tried in the claimed
order.  On win32, `server.js` `getProcessList` (lines 70-81) runs the
`tasklist` shell enumeration first, before the primary
`si.processes()` call, so the first strategy entered is the shell one,
not the primary collector. -/
theorem win32_shell_strategy_tried_first :
    (getProcessListAttempts .win32 (Except.ok winTasklistSample) (some []) 1000).head?
      = some Strategy.shell
    ∧ Strategy.shell ≠ Strategy.primary := by
  exact ⟨rfl, by decide⟩

/-- C3 amended: on non-Windows platforms the order is as claimed minus
the shell step, which `server.js` never attempts there: the primary
collector is entered first, the shell enumeration is never entered, and
a nonempty snapshot is always returned (the placeholder guarantees
this), so no fetch surfaces "no data" on that path.  (On win32 the
shell enumeration runs first; see the C3 counterexample.) -/
theorem nonwindows_primary_first_and_snapshot_nonempty
    (shellRes : Except Unit String) (rand : Nat → ℚ × ℚ)
    (siRes : Option (List (Option RawProc))) (totalmem : ℚ) :
    (getProcessListAttempts .other shellRes siRes totalmem).head? = some Strategy.primary
    ∧ Strategy.shell ∉ getProcessListAttempts .other shellRes siRes totalmem
    ∧ 0 < (getProcessList .other shellRes rand siRes totalmem).length := by
  cases siRes with
  | none =>
    refine ⟨?_, ?_, ?_⟩
    · simp [getProcessListAttempts]
    · simp [getProcessListAttempts]
    · simp [getProcessList, dummyProcesses]
  | some list =>
    by_cases h : (formatSortTruncate totalmem list).length = 0
    · refine ⟨?_, ?_, ?_⟩
      · simp [getProcessListAttempts, h]
      · simp [getProcessListAttempts, h]
      · simp [getProcessList, h, dummyProcesses]
    · refine ⟨?_, ?_, ?_⟩
      · simp [getProcessListAttempts, h]
      · simp [getProcessListAttempts, h]
      · simp only [getProcessList, if_neg h]
        omega

/-! ## Claim C4 -/

/-- Rounding to one decimal keeps nonnegative values nonnegative. -/
theorem jsToFixed1_nonneg {q : ℚ} (h : 0 ≤ q) : 0 ≤ jsToFixed1 q := by
  unfold jsToFixed1
  have hf : (0 : ℤ) ≤ ⌊q * 10 + 1 / 2⌋ := by
    rw [Int.le_floor]
    push_cast
    nlinarith
  have : (0 : ℚ) ≤ ((⌊q * 10 + 1 / 2⌋ : ℤ) : ℚ) := by exact_mod_cast hf
  linarith

/-- Rounding to one decimal keeps values at most 100 at most 100. -/
theorem jsToFixed1_le_100 {q : ℚ} (h : q ≤ 100) : jsToFixed1 q ≤ 100 := by
  unfold jsToFixed1
  have hf : ⌊q * 10 + 1 / 2⌋ ≤ 1000 := by
    have hlt : ⌊q * 10 + 1 / 2⌋ < 1001 := by
      rw [Int.floor_lt]
      push_cast
      nlinarith
    omega
  have : ((⌊q * 10 + 1 / 2⌋ : ℤ) : ℚ) ≤ 1000 := by exact_mod_cast hf
  linarith

/-- C4 counterexample: delivered values are not clamped into the
claimed ranges.  `server.js` `getSystemInfo` clamps loads only from
above (`Math.min(core.load, 100)`, line 215), so a negative collector
core load is delivered negative; and the memory fields are passed
through verbatim (lines 222-226), so a collector sample with
`used + free > total` is delivered violating `used + free ≤ total`. -/
theorem delivered_system_snapshot_out_of_range :
    ((getSystemInfo (some { total := 1000, used := 600, free := 600 })
        (some { currentLoad := 42.7, cpus := [{ load := -5 }, { load := 95 }] })).cpu.cores.getD 0
        { load := 0 }).load < 0
    ∧ (getSystemInfo (some { total := 1000, used := 600, free := 600 })
        (some { currentLoad := 42.7, cpus := [{ load := -5 }, { load := 95 }] })).memory.total
      < (getSystemInfo (some { total := 1000, used := 600, free := 600 })
          (some { currentLoad := 42.7, cpus := [{ load := -5 }, { load := 95 }] })).memory.used
        + (getSystemInfo (some { total := 1000, used := 600, free := 600 })
            (some { currentLoad := 42.7, cpus := [{ load := -5 }, { load := 95 }] })).memory.free := by
  constructor <;> norm_num [getSystemInfo, jsToFixed1, min_def, List.getD]

/-- C4 amended: the loads and the used-percent are clamped from above
only (`Math.min(·, 100)`), so they lie in `[0, 100]` provided the raw
collector values are nonnegative; the memory fields `total`, `used`,
`free` are delivered verbatim, without any `used + free ≤ total`
adjustment. -/
theorem system_snapshot_upper_clamped (m : RawMem) (l : RawLoad)
    (hl : 0 ≤ l.currentLoad) (hc : ∀ c ∈ l.cpus, 0 ≤ c.load)
    (ht : 0 < m.total) (hu : 0 ≤ m.used) :
    (0 ≤ (getSystemInfo (some m) (some l)).cpu.load
      ∧ (getSystemInfo (some m) (some l)).cpu.load ≤ 100)
    ∧ (∀ c ∈ (getSystemInfo (some m) (some l)).cpu.cores, 0 ≤ c.load ∧ c.load ≤ 100)
    ∧ (0 ≤ (getSystemInfo (some m) (some l)).memory.usedPercent
      ∧ (getSystemInfo (some m) (some l)).memory.usedPercent ≤ 100)
    ∧ (getSystemInfo (some m) (some l)).memory.total = m.total
    ∧ (getSystemInfo (some m) (some l)).memory.used = m.used
    ∧ (getSystemInfo (some m) (some l)).memory.free = m.free := by
  refine ⟨⟨?_, ?_⟩, ?_, ⟨?_, ?_⟩, rfl, rfl, rfl⟩
  · exact jsToFixed1_nonneg (le_min hl (by norm_num))
  · exact jsToFixed1_le_100 (min_le_right _ _)
  · intro c hc'
    simp only [getSystemInfo] at hc'
    have hc'' := List.mem_of_mem_take hc'
    rcases List.mem_map.mp hc'' with ⟨raw, hraw, heq⟩
    subst heq
    exact ⟨jsToFixed1_nonneg (le_min (hc raw hraw) (by norm_num)),
           jsToFixed1_le_100 (min_le_right _ _)⟩
  · have hdiv : (0 : ℚ) ≤ m.used / m.total * 100 := by positivity
    exact jsToFixed1_nonneg (le_min hdiv (by norm_num))
  · exact jsToFixed1_le_100 (min_le_right _ _)

/-- Witness for the C4 amended theorem at the spec's own scenario
(total 1000, used 600, free 400, aggregate load 42.7, core loads 10 and
95). -/
theorem system_snapshot_upper_clamped_witness :
    (0 ≤ (getSystemInfo (some { total := 1000, used := 600, free := 400 })
        (some { currentLoad := 42.7, cpus := [{ load := 10 }, { load := 95 }] })).cpu.load
      ∧ (getSystemInfo (some { total := 1000, used := 600, free := 400 })
          (some { currentLoad := 42.7, cpus := [{ load := 10 }, { load := 95 }] })).cpu.load ≤ 100)
    ∧ (∀ c ∈ (getSystemInfo (some { total := 1000, used := 600, free := 400 })
        (some { currentLoad := 42.7, cpus := [{ load := 10 }, { load := 95 }] })).cpu.cores,
        0 ≤ c.load ∧ c.load ≤ 100)
    ∧ (0 ≤ (getSystemInfo (some { total := 1000, used := 600, free := 400 })
        (some { currentLoad := 42.7, cpus := [{ load := 10 }, { load := 95 }] })).memory.usedPercent
      ∧ (getSystemInfo (some { total := 1000, used := 600, free := 400 })
          (some { currentLoad := 42.7, cpus := [{ load := 10 }, { load := 95 }] })).memory.usedPercent
        ≤ 100)
    ∧ (getSystemInfo (some { total := 1000, used := 600, free := 400 })
        (some { currentLoad := 42.7, cpus := [{ load := 10 }, { load := 95 }] })).memory.total
      = (1000 : ℚ)
    ∧ (getSystemInfo (some { total := 1000, used := 600, free := 400 })
        (some { currentLoad := 42.7, cpus := [{ load := 10 }, { load := 95 }] })).memory.used
      = (600 : ℚ)
    ∧ (getSystemInfo (some { total := 1000, used := 600, free := 400 })
        (some { currentLoad := 42.7, cpus := [{ load := 10 }, { load := 95 }] })).memory.free
      = (400 : ℚ) :=
  system_snapshot_upper_clamped
    { total := 1000, used := 600, free := 400 }
    { currentLoad := 42.7, cpus := [{ load := 10 }, { load := 95 }] }
    (by norm_num) (by intro c hc; fin_cases hc <;> norm_num) (by norm_num) (by norm_num)

/-! ## Claim C5 -/

/-- C5 counterexample: not every delivered ProcessSnapshot is sorted
descending by CPU percent.  When the collector fails on a non-Windows
host the delivered snapshot is `getDummyProcesses()`, whose cpu values
run 0.1, 0.5, 5.0, 2.5 — not descending (0.1 < 0.5).  The tasklist
fallback, whose cpu values come from `Math.random()` without a sort, is
unsorted as well. -/
theorem placeholder_snapshot_not_sorted :
    getProcessList .other (Except.error ()) rand0 none 1000 = dummyProcesses
    ∧ ¬ dummyProcesses.Pairwise (fun a b => b.cpu ≤ a.cpu) := by
  refine ⟨rfl, ?_⟩
  intro h
  rcases List.pairwise_cons.mp h with ⟨h1, -⟩
  have h2 := h1 { pid := some 2, name := "Explorer", cpu := 0.5, memory := 1.0, user := "User" }
    (by simp)
  norm_num at h2

/-- C5 amended: every delivered snapshot has at most 50 entries (the
configured top-N of `server.js` line 107 is 50, which lies in 30-50;
the dummy list has 4, the tasklist parse is truncated at line 165), and
the snapshot built from a successful primary collector fetch is sorted
descending by its cpu field; fallback snapshots (placeholder, tasklist)
are not necessarily sorted. -/
theorem snapshot_truncated_and_primary_sorted (platform : Platform)
    (shellRes : Except Unit String) (rand : Nat → ℚ × ℚ)
    (siRes : Option (List (Option RawProc))) (totalmem : ℚ)
    (list : List (Option RawProc)) :
    (getProcessList platform shellRes rand siRes totalmem).length ≤ 50
    ∧ (formatSortTruncate totalmem list).Pairwise (fun a b => b.cpu ≤ a.cpu)
    ∧ (formatSortTruncate totalmem list).length ≤ 50 := by
  have hsorted : ∀ (l' : List (Option RawProc)) (tm : ℚ),
      (formatSortTruncate tm l').Pairwise (fun a b => b.cpu ≤ a.cpu) := by
    intro l' tm
    have h1 : ((formatProcesses tm l').mergeSort cpuDescLe).Pairwise
        (fun a b => cpuDescLe a b = true) :=
      @List.sorted_mergeSort ProcEntry cpuDescLe
        (fun a b c hab hbc => by
          simp only [cpuDescLe, decide_eq_true_eq] at hab hbc ⊢
          linarith)
        (fun a b => by
          simp only [cpuDescLe, Bool.or_eq_true, decide_eq_true_eq]
          exact le_total b.cpu a.cpu)
        (formatProcesses tm l')
    have h2 := h1.sublist (List.take_sublist 50 _)
    exact h2.imp fun h => by simp [cpuDescLe] at h; exact h
  have hlen : ∀ (l' : List (Option RawProc)) (tm : ℚ),
      (formatSortTruncate tm l').length ≤ 50 := by
    intro l' tm
    simp only [formatSortTruncate]
    exact List.length_take_le 50 _
  refine ⟨?_, hsorted list totalmem, hlen list totalmem⟩
  match platform, shellRes with
  | .win32, .ok stdout =>
    show (parseWindowsTasklist rand stdout).length ≤ 50
    simp only [parseWindowsTasklist, List.length_map, List.enum_length]
    exact List.length_take_le 50 _
  | .win32, .error e =>
    cases siRes with
    | none => show dummyProcesses.length ≤ 50; decide
    | some l' =>
      show (if (formatSortTruncate totalmem l').length = 0 then dummyProcesses
            else formatSortTruncate totalmem l').length ≤ 50
      split
      · decide
      · exact hlen l' totalmem
  | .other, sr =>
    cases siRes with
    | none => show dummyProcesses.length ≤ 50; decide
    | some l' =>
      show (if (formatSortTruncate totalmem l').length = 0 then dummyProcesses
            else formatSortTruncate totalmem l').length ≤ 50
      split
      · decide
      · exact hlen l' totalmem

/-! ## Claim C6 -/

/-- C6 counterexample: the pid is not validated to be a positive
integer and no protected-process check exists.  The only check in the
repository is the truthiness test `if (!pid)` of the TypeScript handler
(`src/server/src/index.ts` line 95): the truthy non-positive pid -5
passes it and the platform termination call is executed for it. -/
theorem negative_pid_reaches_platform_call :
    truthy (JSVal.num (-5)) = true
    ∧ Event.execCall (killCommand .other (JSVal.num (-5)))
        ∈ tsKillHandlerTrace .other (JSVal.num (-5)) none
    ∧ ¬ (0 < (-5 : Int)) := by
  refine ⟨rfl, ?_, by decide⟩
  simp [tsKillHandlerTrace, truthy]

/-- C6 amended: the TypeScript handler executes the platform call
exactly for truthy pids (so 0, "", null and undefined are rejected, but
negative and non-numeric truthy values are not), and the `server.js`
handler executes it for every pid with no validation at all; neither
handler consults the last ProcessSnapshot, so no protected/non-killable
rejection path exists. -/
theorem kill_validation_is_truthiness_only (platform : Platform) (pid : JSVal)
    (execErr : Option String) (shellRes : Except Unit String) (rand : Nat → ℚ × ℚ)
    (siRes : Option (List (Option RawProc))) (totalmem : ℚ) :
    ((∃ cmd, Event.execCall cmd ∈ tsKillHandlerTrace platform pid execErr)
      ↔ truthy pid = true)
    ∧ Event.execCall (killCommand platform pid)
        ∈ killHandlerTrace platform pid execErr shellRes rand siRes totalmem := by
  constructor
  · constructor
    · rintro ⟨cmd, hmem⟩
      by_contra hfalse
      rw [Bool.not_eq_true] at hfalse
      simp [tsKillHandlerTrace, hfalse] at hmem
    · intro htrue
      refine ⟨killCommand platform pid, ?_⟩
      simp [tsKillHandlerTrace, htrue]
  · cases execErr <;> simp [killHandlerTrace, killProcessById]

/-! ## Claim C7 -/

/-- C7: the `server.js` kill handler (lines 455-481) emits, to the
requesting session and in order, first the immediate acknowledgment
`killProcessAcknowledged` and then exactly one terminal
`killProcessResponse` outcome — the success response with confirmation
message from the resolved platform call, or the failure response with
the error reason from the rejected one. -/
theorem kill_ack_then_single_outcome (platform : Platform) (n : Int) (hpos : 0 < n)
    (execErr : Option String) (shellRes : Except Unit String) (rand : Nat → ℚ × ℚ)
    (siRes : Option (List (Option RawProc))) (totalmem : ℚ) :
    ∃ rest, killHandlerTrace platform (JSVal.num n) execErr shellRes rand siRes totalmem
        = Event.ack (JSVal.num n) :: rest
      ∧ rest.countP Event.isTerminal = 1 := by
  cases execErr with
  | none =>
    refine ⟨_, rfl, ?_⟩
    simp [killProcessById, List.countP_cons, Event.isTerminal]
  | some e =>
    refine ⟨_, rfl, ?_⟩
    simp [killProcessById, List.countP_cons, Event.isTerminal]

/-- Witness for C7 at pid 42 with a succeeding platform call. -/
theorem kill_ack_then_single_outcome_witness :
    (0 : Int) < 42
    ∧ ∃ rest, killHandlerTrace .other (JSVal.num 42) none (Except.error ()) rand0 none 1000
        = Event.ack (JSVal.num 42) :: rest
      ∧ rest.countP Event.isTerminal = 1 :=
  ⟨by decide,
   kill_ack_then_single_outcome .other 42 (by decide) none (Except.error ()) rand0 none 1000⟩

/-! ## Claim C8 -/

/-- C8 counterexample: when the platform call fails (here with the
"no such process" outcome of the pid-999999 scenario), the `server.js`
handler's catch branch (lines 473-480) emits the failure response
without refreshing the process-list cache: no force-refresh happens on
the failure path, contradicting the claim that the cache is still
force-refreshed when the platform call fails. -/
theorem failed_kill_skips_force_refresh :
    Event.refreshProcessList ∉
      killHandlerTrace .other (JSVal.num 999999)
        (some "kill: (999999) - No such process") (Except.error ()) rand0 none 1000
    ∧ Event.response false (JSVal.num 999999) "kill: (999999) - No such process" ∈
      killHandlerTrace .other (JSVal.num 999999)
        (some "kill: (999999) - No such process") (Except.error ()) rand0 none 1000 := by
  constructor
  · simp [killHandlerTrace, killProcessById]
  · simp [killHandlerTrace, killProcessById]

/-- C8 amended: the force-refresh of the process-list cache happens
exactly on the success path: when the platform call succeeds, the
handler refreshes the cache unconditionally (no `maxAge`/timestamp is
consulted) and does so before emitting the final success status; when
the platform call fails, no refresh occurs. -/
theorem force_refresh_only_on_success (platform : Platform) (pid : JSVal)
    (shellRes : Except Unit String) (rand : Nat → ℚ × ℚ)
    (siRes : Option (List (Option RawProc))) (totalmem : ℚ) :
    (∃ pre,
        killHandlerTrace platform pid none shellRes rand siRes totalmem
          = pre ++ [Event.response true pid
              ("Process " ++ jsRender pid ++ " terminated successfully")]
        ∧ Event.refreshProcessList ∈ pre)
    ∧ ∀ e : String, Event.refreshProcessList ∉
        killHandlerTrace platform pid (some e) shellRes rand siRes totalmem := by
  constructor
  · refine ⟨[Event.ack pid, Event.execCall (killCommand platform pid),
      Event.refreshProcessList,
      Event.emitProcessList (getProcessList platform shellRes rand siRes totalmem)],
      rfl, ?_⟩
    simp
  · intro e
    simp [killHandlerTrace, killProcessById]

/-! ## Claim C9 -/

/-- The length of a `filterMap` is the number of elements the function
keeps. -/
theorem length_filterMap_eq_countP {α β : Type} (f : α → Option β) (l : List α) :
    (l.filterMap f).length = l.countP fun a => (f a).isSome := by
  induction l with
  | nil => rfl
  | cons a t ih =>
    cases h : f a <;> simp [List.filterMap_cons, h, List.countP_cons, ih]

/-- A `ps` output with a header, three well-formed rows and one
malformed (too-short) row. -/
def psSampleOutput : String :=
  "  PID COMMAND %CPU %MEM USER\n  123 node 12.0 3.4 root\n  456 bash 0.5 0.1 ayush\nmalformed line\n  789 chrome 25.1 8.9 ayush\n"

/-- C9: `parseUnixPS` keeps exactly the non-header, non-blank lines
with at least 5 whitespace-separated columns — each malformed or
too-short line is dropped individually while every well-formed line
becomes an entry, and the function is total, so no exception
propagates; in particular three valid rows plus one malformed row parse
to exactly 3 entries. -/
theorem ps_parse_drops_malformed_lines_individually :
    (∀ output : String,
        (parseUnixPS output).length
          = ((jsLines output).drop 1).countP fun l => 5 ≤ (wsTokens l).length)
    ∧ (parseUnixPS psSampleOutput).length = 3 := by
  constructor
  · intro output
    rw [parseUnixPS, length_filterMap_eq_countP]
    apply List.countP_congr
    intro l _
    by_cases h : 5 ≤ (wsTokens l).length <;> simp [h]
  · decide

/-! ## Claim C10 -/

/-- C10: for every kill request whose pid passes the only precondition
check — JavaScript truthiness — the executed shell string is exactly
the fixed prefix (`kill -9 ` on non-Windows, `taskkill /F /PID ` on
Windows) concatenated with the client-supplied pid value rendered
verbatim; no numeric or positivity check intervenes, so any truthy
non-numeric or negative value reaches the shell unmodified. -/
theorem kill_command_is_verbatim_concatenation (pid : JSVal) (execErr : Option String)
    (htruthy : truthy pid = true) :
    (tsKillHandlerTrace .other pid execErr).head?
      = some (Event.execCall ("kill -9 " ++ jsRender pid))
    ∧ (tsKillHandlerTrace .win32 pid execErr).head?
      = some (Event.execCall ("taskkill /F /PID " ++ jsRender pid)) := by
  constructor <;> simp [tsKillHandlerTrace, htruthy, killCommand]

/-- Witness for C10 at the truthy, non-numeric pid "abc". -/
theorem kill_command_is_verbatim_concatenation_witness :
    truthy (JSVal.str "abc") = true
    ∧ (tsKillHandlerTrace .other (JSVal.str "abc") none).head?
      = some (Event.execCall ("kill -9 " ++ jsRender (JSVal.str "abc")))
    ∧ (tsKillHandlerTrace .win32 (JSVal.str "abc") none).head?
      = some (Event.execCall ("taskkill /F /PID " ++ jsRender (JSVal.str "abc"))) :=
  ⟨rfl,
   (kill_command_is_verbatim_concatenation (JSVal.str "abc") none rfl).1,
   (kill_command_is_verbatim_concatenation (JSVal.str "abc") none rfl).2⟩

end Dashboard
